import Mathlib

/-!
Verification of the motion-activated reaction game (final snapshot of the
repository).  The definitions below are a shallow embedding of the game's
core: the frame differ (`detectMotion`), region activation
(`checkVirtualButtons`), the round state machine (`startRound`, `endRound`,
`maybeAdvanceGameClock`) and the per-frame orchestration (`processFrame`).
Timestamps are naturals (milliseconds of the performance clock); the 0.15
float threshold is embedded as the rational 15/100; the random target choice
is an oracle supplied with each tick.
-/

namespace MotionGame

/-- MAX_HP constant of the source (spec name MAX_LIVES).  The hp counter is
an Int because the source decrements a JS number without clamping. -/
def MAX_HP : Int := 3

def ROUND_MS : Nat := 2000

def FLASH_MS : Nat := 500

/-- One RGBA pixel of an ImageData buffer; channels are 0..255. -/
structure Pixel where
  r : Nat
  g : Nat
  b : Nat
  a : Nat
deriving DecidableEq

/-- A frame: width, height and the flat pixel list (row-major). -/
structure Frame where
  width : Nat
  height : Nat
  data : List Pixel
deriving DecidableEq

/-- Sum of absolute per-channel RGB differences, as in detectMotion's delta. -/
def pixelDelta (p c : Pixel) : Nat :=
  ((c.r : Int) - (p.r : Int)).natAbs +
    ((c.g : Int) - (p.g : Int)).natAbs +
    ((c.b : Int) - (p.b : Int)).natAbs

/-- detectMotion of the source: iterates over the current frame's pixels;
a pixel is motion when delta > 50.  A read past the end of the previous
frame's buffer is undefined in JS, the deltas become NaN, and NaN > 50 is
false, hence the catch-all `false` branch. -/
def detectMotion (prev curr : Frame) : List Bool :=
  (List.range curr.data.length).map fun k =>
    match prev.data.get? k, curr.data.get? k with
    | some p, some c => decide (50 < pixelDelta p c)
    | _, _ => false

/-- A virtual button: resolved rectangle in frame coordinates.  x and y are
Int because the layout closures can produce negative coordinates on narrow
frames (e.g. canvas.width - BUTTON_PADDING - BUTTON_SIZE). -/
structure Button where
  x : Int
  y : Int
  w : Nat
  h : Nat
deriving DecidableEq

def BUTTON_SIZE : Nat := 84

def BUTTON_PADDING : Nat := 16

def ROW_GAP : Nat := 12

/-- The three buttons of the source, with their layout closures resolved
against the current canvas width (capture top-centered, grayscale left,
save right).  JS computes (width - 84) / 2 in floats; for the even widths
used in the claims below this agrees with integer division. -/
def mkButtons (width : Nat) : List Button :=
  [ { x := ((width : Int) - (BUTTON_SIZE : Int)) / 2, y := (BUTTON_PADDING : Int),
      w := BUTTON_SIZE, h := BUTTON_SIZE },
    { x := (BUTTON_PADDING : Int), y := (BUTTON_PADDING : Int) + (BUTTON_SIZE : Int) + (ROW_GAP : Int),
      w := BUTTON_SIZE, h := BUTTON_SIZE },
    { x := (width : Int) - (BUTTON_PADDING : Int) - (BUTTON_SIZE : Int),
      y := (BUTTON_PADDING : Int) + (BUTTON_SIZE : Int) + (ROW_GAP : Int),
      w := BUTTON_SIZE, h := BUTTON_SIZE } ]

/-- Reading the motion mask at a (possibly negative or out-of-range) pixel
index: in JS `diff[di] > 128` is false when di is out of range (undefined),
and the diff stores 255 exactly at motion pixels. -/
def maskAt (mask : List Bool) (idx : Int) : Bool :=
  if 0 ≤ idx then (mask.get? idx.toNat).getD false else false

/-- The nested pixel loop of checkVirtualButtons: count mask hits inside
the button's rectangle, indexing the flat mask by (j * width + i). -/
def motionCount (mask : List Bool) (width : Nat) (b : Button) : Nat :=
  ((List.range b.h).map fun (dj : Nat) =>
    ((List.range b.w).filter fun (di : Nat) =>
      maskAt mask ((b.y + (dj : Int)) * (width : Int) + (b.x + (di : Int)))).length).sum

/-- THRESHOLD = 0.15 of the source, embedded as an exact rational. -/
def THRESHOLD : ℚ := 15 / 100

/-- ratio = motionCount / totalPixels with totalPixels = w * h. -/
def ratioOf (mask : List Bool) (width : Nat) (b : Button) : ℚ :=
  ((motionCount mask width b : Nat) : ℚ) / (((b.w * b.h : Nat)) : ℚ)

/-- The per-button test of checkVirtualButtons:
roundActive && ratio > THRESHOLD. -/
def buttonActive (mask : List Bool) (width : Nat) (roundActive : Bool) (b : Button) : Bool :=
  roundActive && decide (THRESHOLD < ratioOf mask width b)

/-- The forEach of checkVirtualButtons: frameLast tracks the index of the
most recently evaluated active button. -/
def frameLastRun (mask : List Bool) (width : Nat) (roundActive : Bool) :
    List Button → Nat → Option Nat → Option Nat
  | [], _, acc => acc
  | b :: rest, idx, acc =>
      frameLastRun mask width roundActive rest (idx + 1)
        (if buttonActive mask width roundActive b then some idx else acc)

/-- checkVirtualButtons: after the loop, lastActivatedIndex is overwritten
only when some button was active this frame. -/
def checkVirtualButtons (mask : List Bool) (width : Nat) (btns : List Button)
    (roundActive : Bool) (last : Option Nat) : Option Nat :=
  match frameLastRun mask width roundActive btns 0 none with
  | some i => some i
  | none => last

inductive FlashColor
  | success
  | fail
deriving DecidableEq

/-- The mutable game state of the source (module-level lets). -/
structure GameState where
  hp : Int
  gameOver : Bool
  roundActive : Bool
  roundEndsAt : Nat
  targetIndex : Nat
  hitRecorded : Bool
  flashingTarget : Option Nat
  flashEndsAt : Nat
  flashColor : Option FlashColor
  lastActivatedIndex : Option Nat
deriving DecidableEq

/-- startRound of the source; target stands for the Math.random pick. -/
def startRound (now : Nat) (target : Nat) (s : GameState) : GameState :=
  if s.gameOver then s
  else
    { s with
      roundActive := true
      hitRecorded := false
      lastActivatedIndex := none
      targetIndex := target
      roundEndsAt := now + ROUND_MS
      flashingTarget := none
      flashColor := none }

/-- endRound of the source: record hit/miss, set the flash fields, then
decrement hp on miss and raise gameOver exactly when hp lands on 0. -/
def endRound (now : Nat) (s : GameState) : GameState :=
  let hit : Bool := s.lastActivatedIndex == some s.targetIndex
  let s1 :=
    { s with
      roundActive := false
      hitRecorded := hit
      flashingTarget := some s.targetIndex
      flashColor := some (if hit then FlashColor.success else FlashColor.fail)
      flashEndsAt := now + FLASH_MS }
  if hit then s1
  else
    let hp2 := s.hp - 1
    { s1 with hp := hp2, gameOver := if hp2 == 0 then true else s1.gameOver }

/-- maybeAdvanceGameClock of the source: two sequential (not else-if)
guarded transitions against the same tick timestamp. -/
def maybeAdvanceGameClock (now : Nat) (target : Nat) (s : GameState) : GameState :=
  let s1 :=
    if !s.gameOver && s.roundActive && decide (s.roundEndsAt ≤ now) then endRound now s else s
  if !s1.gameOver && !s1.roundActive && s1.flashingTarget.isSome && decide (s1.flashEndsAt ≤ now) then
    startRound now target s1
  else s1

/-- The spec's phase view of the source's boolean flags. -/
inductive Phase
  | Idle
  | RoundActive
  | Flash
  | GameOver
deriving DecidableEq

def phase (s : GameState) : Phase :=
  if s.gameOver then Phase.GameOver
  else if s.roundActive then Phase.RoundActive
  else if s.flashingTarget.isSome then Phase.Flash
  else Phase.Idle

/-- The fill decision of drawVirtualButtons for one button index: the flash
tint applies when !roundActive && flashingTarget === idx && now < flashEndsAt
(note: no gameOver check in the source). -/
inductive Fill
  | normal
  | successTint
  | failTint
deriving DecidableEq

def buttonFill (s : GameState) (now : Nat) (idx : Nat) : Fill :=
  if !s.roundActive && (s.flashingTarget == some idx) && decide (now < s.flashEndsAt) then
    if s.flashColor == some FlashColor.success then Fill.successTint else Fill.failTint
  else Fill.normal

/-- One animation tick: its timestamp, the freshly captured frame, and the
oracle for the Math.random target pick should a round start this tick. -/
structure Tick where
  now : Nat
  frame : Frame
  target : Nat
deriving DecidableEq

/-- The module state outside GameState: the held previous frame. -/
structure World where
  prev : Option Frame
  s : GameState
deriving DecidableEq

/-- The motion-detection half of processFrame: when a previous frame is
held and the game is not over, run detectMotion and checkVirtualButtons
(which only ever writes lastActivatedIndex). -/
def tickDetect (w : World) (t : Tick) : GameState :=
  match w.prev with
  | none => w.s
  | some pf =>
      if w.s.gameOver then w.s
      else
        { w.s with
          lastActivatedIndex :=
            checkVirtualButtons (detectMotion pf t.frame) t.frame.width
              (mkButtons t.frame.width) w.s.roundActive w.s.lastActivatedIndex }

/-- processFrame of the source restricted to its game-logic effects:
detection, then (when not game over) the clock advance, then replacing the
previous frame. -/
def processFrame (w : World) (t : Tick) : World :=
  let s1 := tickDetect w t
  let s2 := if s1.gameOver then s1 else maybeAdvanceGameClock t.now t.target s1
  { prev := some t.frame, s := s2 }

/-- The module-level initial values of the source. -/
def initState : GameState :=
  { hp := MAX_HP
    gameOver := false
    roundActive := false
    roundEndsAt := 0
    targetIndex := 0
    hitRecorded := false
    flashingTarget := none
    flashEndsAt := 0
    flashColor := none
    lastActivatedIndex := none }

/-- startCamera calls startRound once before the first processFrame. -/
def initWorld (now0 : Nat) (target0 : Nat) : World :=
  { prev := none, s := startRound now0 target0 initState }

/-- Modelled from the spec: the FrameDiffer contract of section 4.1, which
requires equal dimensions and otherwise fails with DimensionMismatch.  The
source's detectMotion has no such check; this definition exists only to be
compared against it. -/
inductive DiffError
  | DimensionMismatch
deriving DecidableEq

def specDiff (prev curr : Frame) : Except DiffError (List Bool) :=
  if prev.width = curr.width ∧ prev.height = curr.height then
    Except.ok (detectMotion prev curr)
  else Except.error DiffError.DimensionMismatch

/-- An all-black 84 x 200 camera frame (16800 pixels), used as concrete
input data: at width 84 all three buttons index entirely inside the mask. -/
def blackF : Frame := ⟨84, 200, List.replicate 16800 ⟨0, 0, 0, 255⟩⟩

/-- An all-white 84 x 200 camera frame: against blackF every pixel delta is
765, so the whole mask is motion. -/
def whiteF : Frame := ⟨84, 200, List.replicate 16800 ⟨255, 255, 255, 255⟩⟩

/-- The inductive invariant tying hp to gameOver along any run. -/
def LivesInv (s : GameState) : Prop :=
  0 ≤ s.hp ∧ s.hp ≤ MAX_HP ∧ (s.gameOver = true ↔ s.hp = 0)

/-! ### Bridge lemmas: the rational threshold test as Nat arithmetic -/

lemma motionCount_of_area_zero (mask : List Bool) (width : Nat) (b : Button)
    (h : b.w * b.h = 0) : motionCount mask width b = 0 := by
  rcases Nat.mul_eq_zero.mp h with hw | hh
  · unfold motionCount
    rw [hw]
    simp
  · unfold motionCount
    rw [hh]
    simp

lemma threshold_lt_ratio_iff (mask : List Bool) (width : Nat) (b : Button) :
    (THRESHOLD < ratioOf mask width b) ↔
      3 * (b.w * b.h) < 20 * motionCount mask width b := by
  unfold THRESHOLD ratioOf
  rcases Nat.eq_zero_or_pos (b.w * b.h) with h0 | hpos
  · rw [h0, motionCount_of_area_zero mask width b h0]
    norm_num
  · have ht : (0:ℚ) < ((b.w * b.h : Nat) : ℚ) := by exact_mod_cast hpos
    rw [div_lt_div_iff₀ (by norm_num) ht]
    constructor
    · intro h
      have h2 : 15 * (b.w * b.h) < motionCount mask width b * 100 := by exact_mod_cast h
      omega
    · intro h
      have h2 : 15 * (b.w * b.h) < motionCount mask width b * 100 := by omega
      exact_mod_cast h2

lemma buttonActive_eq_natTest (mask : List Bool) (width : Nat) (ra : Bool) (b : Button) :
    buttonActive mask width ra b =
      (ra && decide (3 * (b.w * b.h) < 20 * motionCount mask width b)) := by
  unfold buttonActive
  rw [decide_eq_decide.mpr (threshold_lt_ratio_iff mask width b)]

lemma ratio_eq_threshold_iff (mask : List Bool) (width : Nat) (b : Button)
    (hpos : 0 < b.w * b.h) :
    ratioOf mask width b = THRESHOLD ↔
      20 * motionCount mask width b = 3 * (b.w * b.h) := by
  unfold THRESHOLD ratioOf
  have ht : ((b.w * b.h : Nat) : ℚ) ≠ 0 := by
    have h2 : (0:ℚ) < ((b.w * b.h : Nat) : ℚ) := by exact_mod_cast hpos
    exact ne_of_gt h2
  rw [div_eq_div_iff ht (by norm_num)]
  constructor
  · intro h
    have h2 : motionCount mask width b * 100 = 15 * (b.w * b.h) := by exact_mod_cast h
    omega
  · intro h
    have h2 : motionCount mask width b * 100 = 15 * (b.w * b.h) := by omega
    exact_mod_cast h2

end MotionGame

namespace MotionGame

/-! ### State-machine helper lemmas -/

lemma endRound_hit (now : Nat) (s : GameState)
    (h : s.lastActivatedIndex = some s.targetIndex) :
    endRound now s =
      { s with
        roundActive := false, hitRecorded := true,
        flashingTarget := some s.targetIndex, flashColor := some FlashColor.success,
        flashEndsAt := now + FLASH_MS } := by
  unfold endRound
  simp [h]

lemma endRound_miss (now : Nat) (s : GameState)
    (h : ¬ s.lastActivatedIndex = some s.targetIndex) :
    endRound now s =
      { s with
        roundActive := false, hitRecorded := false,
        flashingTarget := some s.targetIndex, flashColor := some FlashColor.fail,
        flashEndsAt := now + FLASH_MS, hp := s.hp - 1,
        gameOver := if s.hp - 1 == 0 then true else s.gameOver } := by
  unfold endRound
  have hb : (s.lastActivatedIndex == some s.targetIndex) = false := by
    simp [h]
  simp [hb]

lemma endRound_flashEndsAt (now : Nat) (s : GameState) :
    (endRound now s).flashEndsAt = now + FLASH_MS := by
  by_cases h : s.lastActivatedIndex = some s.targetIndex
  · rw [endRound_hit now s h]
  · rw [endRound_miss now s h]

lemma endRound_roundActive (now : Nat) (s : GameState) :
    (endRound now s).roundActive = false := by
  by_cases h : s.lastActivatedIndex = some s.targetIndex
  · rw [endRound_hit now s h]
  · rw [endRound_miss now s h]

lemma endRound_flashingTarget (now : Nat) (s : GameState) :
    (endRound now s).flashingTarget = some s.targetIndex := by
  by_cases h : s.lastActivatedIndex = some s.targetIndex
  · rw [endRound_hit now s h]
  · rw [endRound_miss now s h]

lemma endRound_hitRecorded (now : Nat) (s : GameState) :
    (endRound now s).hitRecorded = (s.lastActivatedIndex == some s.targetIndex) := by
  by_cases h : s.lastActivatedIndex = some s.targetIndex
  · rw [endRound_hit now s h]
    simp [h]
  · rw [endRound_miss now s h]
    simp [h]

lemma startRound_of_not_over (now target : Nat) (s : GameState) (h : s.gameOver = false) :
    startRound now target s =
      { s with
        roundActive := true, hitRecorded := false, lastActivatedIndex := none,
        targetIndex := target, roundEndsAt := now + ROUND_MS,
        flashingTarget := none, flashColor := none } := by
  unfold startRound
  simp [h]

lemma startRound_of_over (now target : Nat) (s : GameState) (h : s.gameOver = true) :
    startRound now target s = s := by
  unfold startRound
  simp [h]

lemma phase_roundActive_iff (s : GameState) :
    phase s = Phase.RoundActive ↔ s.gameOver = false ∧ s.roundActive = true := by
  cases hG : s.gameOver
  · cases hR : s.roundActive
    · simp only [phase, hG, hR]
      simp only [Bool.false_eq_true, if_false]
      split <;> simp
    · simp [phase, hG, hR]
  · simp [phase, hG]

lemma maybeAdvance_of_gameOver (now target : Nat) (s : GameState) (h : s.gameOver = true) :
    maybeAdvanceGameClock now target s = s := by
  unfold maybeAdvanceGameClock
  simp [h]

lemma maybeAdvance_stay (now target : Nat) (s : GameState)
    (hG : s.gameOver = false) (hR : s.roundActive = true) (hlt : now < s.roundEndsAt) :
    maybeAdvanceGameClock now target s = s := by
  unfold maybeAdvanceGameClock
  have h1 : decide (s.roundEndsAt ≤ now) = false := by
    simp
    omega
  simp [hG, hR, h1]

lemma maybeAdvance_end (now target : Nat) (s : GameState)
    (hG : s.gameOver = false) (hR : s.roundActive = true) (hd : s.roundEndsAt ≤ now) :
    maybeAdvanceGameClock now target s = endRound now s := by
  unfold maybeAdvanceGameClock
  have h1 : (!s.gameOver && s.roundActive && decide (s.roundEndsAt ≤ now)) = true := by
    simp [hG, hR, hd]
  rw [if_pos h1]
  have h2 : decide ((endRound now s).flashEndsAt ≤ now) = false := by
    rw [endRound_flashEndsAt]
    simp [FLASH_MS]
  simp [h2]

end MotionGame

namespace MotionGame

/-- C5: starting a round sets roundDeadline = now + 2000 ms; a tick strictly
before the deadline (in particular at deadline - 1) leaves the phase
RoundActive (state unchanged), and a tick at now >= deadline triggers the
RoundActive transition: to GameOver when the resulting miss brings lives to
0, otherwise to Flash. -/
theorem C5_round_deadline :
    (∀ s now target, s.gameOver = false →
      (startRound now target s).roundEndsAt = now + ROUND_MS) ∧
    (∀ s now target, phase s = Phase.RoundActive → now < s.roundEndsAt →
      maybeAdvanceGameClock now target s = s) ∧
    (∀ s now target, phase s = Phase.RoundActive → s.roundEndsAt ≤ now →
      phase (maybeAdvanceGameClock now target s) =
        (if ¬ s.lastActivatedIndex = some s.targetIndex ∧ s.hp - 1 = 0
          then Phase.GameOver else Phase.Flash)) := by
  refine ⟨?_, ?_, ?_⟩
  · intro s now target hG
    rw [startRound_of_not_over now target s hG]
  · intro s now target hph hlt
    obtain ⟨hG, hR⟩ := (phase_roundActive_iff s).mp hph
    exact maybeAdvance_stay now target s hG hR hlt
  · intro s now target hph hd
    obtain ⟨hG, hR⟩ := (phase_roundActive_iff s).mp hph
    rw [maybeAdvance_end now target s hG hR hd]
    by_cases hmiss : s.lastActivatedIndex = some s.targetIndex
    · rw [endRound_hit now s hmiss]
      simp [phase, hG, hmiss]
    · rw [endRound_miss now s hmiss]
      by_cases hz : s.hp - 1 = 0
      · have hb : (s.hp - 1 == 0) = true := by simpa using hz
        simp [phase, hb, hmiss, hz]
      · have hb : (s.hp - 1 == 0) = false := by simpa using hz
        simp [phase, hb, hG, hmiss, hz]

/-- C5 witness: a concrete round started at t=100 has deadline 2100; the
tick at 2099 changes nothing; the tick at 2100 flips the phase to Flash
(lives 3) and, from a one-life state, to GameOver. -/
theorem C5_round_deadline_witness :
    (startRound 100 1 initState).roundEndsAt = 100 + ROUND_MS ∧
    maybeAdvanceGameClock 2099 0 (startRound 100 1 initState) = startRound 100 1 initState ∧
    phase (maybeAdvanceGameClock 2100 0 (startRound 100 1 initState)) = Phase.Flash ∧
    phase (maybeAdvanceGameClock 500 0
      { hp := 1, gameOver := false, roundActive := true, roundEndsAt := 500, targetIndex := 2,
        hitRecorded := false, flashingTarget := none, flashEndsAt := 0, flashColor := none,
        lastActivatedIndex := none }) = Phase.GameOver := by
  refine ⟨?_, ?_, ?_, ?_⟩
  · exact C5_round_deadline.1 initState 100 1 (by decide)
  · exact C5_round_deadline.2.1 (startRound 100 1 initState) 2099 0 (by decide) (by decide)
  · exact (C5_round_deadline.2.2 (startRound 100 1 initState) 2100 0 (by decide)
      (by decide)).trans (by decide)
  · exact (C5_round_deadline.2.2 _ 500 0 (by decide) (by decide)).trans (by decide)

/-- C8: the clock advance performs at most one phase transition per tick
(the result is the unchanged state, one endRound, or one startRound, never
a composition), and after a RoundActive-to-Flash transition the fresh flash
deadline lies strictly in the future, so no Flash-to-RoundActive transition
can fire on the same tick; a miss-driven GameOver leaves the result at
exactly that endRound state for the tick. -/
theorem C8_single_transition :
    (∀ s now target,
      maybeAdvanceGameClock now target s = s ∨
      maybeAdvanceGameClock now target s = endRound now s ∨
      maybeAdvanceGameClock now target s = startRound now target s) ∧
    (∀ s now target, phase s = Phase.RoundActive → s.roundEndsAt ≤ now →
      maybeAdvanceGameClock now target s = endRound now s ∧
      now < (maybeAdvanceGameClock now target s).flashEndsAt) := by
  constructor
  · intro s now target
    by_cases h1 : (!s.gameOver && s.roundActive && decide (s.roundEndsAt ≤ now)) = true
    · right; left
      simp only [Bool.and_eq_true, Bool.not_eq_eq_eq_not, Bool.not_true, decide_eq_true_eq] at h1
      exact maybeAdvance_end now target s h1.1.1 h1.1.2 h1.2
    · unfold maybeAdvanceGameClock
      rw [if_neg h1]
      by_cases h2 : (!s.gameOver && !s.roundActive && s.flashingTarget.isSome &&
          decide (s.flashEndsAt ≤ now)) = true
      · right; right
        rw [if_pos h2]
      · left
        rw [if_neg h2]
  · intro s now target hph hd
    obtain ⟨hG, hR⟩ := (phase_roundActive_iff s).mp hph
    have he := maybeAdvance_end now target s hG hR hd
    refine ⟨he, ?_⟩
    rw [he, endRound_flashEndsAt]
    simp [FLASH_MS]

/-- C8 witness: on the concrete round started at t=100, the tick at 2100 is
exactly one endRound and its new flash deadline 2600 is in the future. -/
theorem C8_single_transition_witness :
    (maybeAdvanceGameClock 50 0 initState = initState ∨
      maybeAdvanceGameClock 50 0 initState = endRound 50 initState ∨
      maybeAdvanceGameClock 50 0 initState = startRound 50 0 initState) ∧
    maybeAdvanceGameClock 2100 0 (startRound 100 1 initState) =
      endRound 2100 (startRound 100 1 initState) ∧
    2100 < (maybeAdvanceGameClock 2100 0 (startRound 100 1 initState)).flashEndsAt := by
  refine ⟨C8_single_transition.1 initState 50 0, ?_, ?_⟩
  · exact (C8_single_transition.2 (startRound 100 1 initState) 2100 0 (by decide) (by decide)).1
  · exact (C8_single_transition.2 (startRound 100 1 initState) 2100 0 (by decide) (by decide)).2

end MotionGame

namespace MotionGame

/-- C2 counterexample: a round that expires with a miss at one life does set
the flash fields on the way to GameOver: flashingTarget is the target (not
none), flashColor is fail (not none), flashEndsAt = now + FLASH_MS takes
effect, and drawVirtualButtons tints the target button red on a later tick
inside the flash window, because its tint test never checks gameOver. -/
theorem C2_counterexample :
    (maybeAdvanceGameClock 100 0
      { hp := 1, gameOver := false, roundActive := true, roundEndsAt := 100, targetIndex := 0,
        hitRecorded := false, flashingTarget := none, flashEndsAt := 0, flashColor := none,
        lastActivatedIndex := none }).gameOver = true ∧
    (maybeAdvanceGameClock 100 0
      { hp := 1, gameOver := false, roundActive := true, roundEndsAt := 100, targetIndex := 0,
        hitRecorded := false, flashingTarget := none, flashEndsAt := 0, flashColor := none,
        lastActivatedIndex := none }).flashingTarget = some 0 ∧
    (maybeAdvanceGameClock 100 0
      { hp := 1, gameOver := false, roundActive := true, roundEndsAt := 100, targetIndex := 0,
        hitRecorded := false, flashingTarget := none, flashEndsAt := 0, flashColor := none,
        lastActivatedIndex := none }).flashColor = some FlashColor.fail ∧
    (maybeAdvanceGameClock 100 0
      { hp := 1, gameOver := false, roundActive := true, roundEndsAt := 100, targetIndex := 0,
        hitRecorded := false, flashingTarget := none, flashEndsAt := 0, flashColor := none,
        lastActivatedIndex := none }).flashEndsAt = 100 + FLASH_MS ∧
    buttonFill (maybeAdvanceGameClock 100 0
      { hp := 1, gameOver := false, roundActive := true, roundEndsAt := 100, targetIndex := 0,
        hitRecorded := false, flashingTarget := none, flashEndsAt := 0, flashColor := none,
        lastActivatedIndex := none }) 150 0 = Fill.failTint := by
  decide

/-- C2 amended: when the decremented lives reach 0 at round expiry, gameOver
is raised immediately in the same endRound call, the phase is GameOver (the
Flash phase is skipped in the sense that no Flash-to-RoundActive transition
ever follows: the state is frozen), but the flash fields are still written
(flashingTarget = target, flashColor = fail, flashEndsAt = now + FLASH_MS)
and the fail tint still renders inside the flash window. -/
theorem C2_gameOver_still_sets_flash (s : GameState) (now target : Nat)
    (hph : phase s = Phase.RoundActive)
    (hmiss : ¬ s.lastActivatedIndex = some s.targetIndex)
    (hhp : s.hp = 1) (hd : s.roundEndsAt ≤ now) :
    (maybeAdvanceGameClock now target s).gameOver = true ∧
    phase (maybeAdvanceGameClock now target s) = Phase.GameOver ∧
    (maybeAdvanceGameClock now target s).flashingTarget = some s.targetIndex ∧
    (maybeAdvanceGameClock now target s).flashColor = some FlashColor.fail ∧
    (maybeAdvanceGameClock now target s).flashEndsAt = now + FLASH_MS ∧
    buttonFill (maybeAdvanceGameClock now target s) now s.targetIndex = Fill.failTint ∧
    (∀ now2 target2,
      maybeAdvanceGameClock now2 target2 (maybeAdvanceGameClock now target s) =
        maybeAdvanceGameClock now target s) := by
  obtain ⟨hG, hR⟩ := (phase_roundActive_iff s).mp hph
  rw [maybeAdvance_end now target s hG hR hd, endRound_miss now s hmiss]
  have hz : (s.hp - 1 == 0) = true := by
    rw [hhp]
    decide
  rw [hz]
  refine ⟨rfl, by simp [phase], rfl, rfl, rfl, ?_, ?_⟩
  · unfold buttonFill
    simp [FLASH_MS]
  · intro now2 target2
    exact maybeAdvance_of_gameOver now2 target2 _ rfl

/-- C2 witness: the amended behavior at the concrete one-life state of the
counterexample. -/
theorem C2_gameOver_still_sets_flash_witness :
    (maybeAdvanceGameClock 100 0
      { hp := 1, gameOver := false, roundActive := true, roundEndsAt := 100, targetIndex := 0,
        hitRecorded := false, flashingTarget := none, flashEndsAt := 0, flashColor := none,
        lastActivatedIndex := none }).gameOver = true ∧
    buttonFill (maybeAdvanceGameClock 100 0
      { hp := 1, gameOver := false, roundActive := true, roundEndsAt := 100, targetIndex := 0,
        hitRecorded := false, flashingTarget := none, flashEndsAt := 0, flashColor := none,
        lastActivatedIndex := none }) 100 0 = Fill.failTint := by
  have h := C2_gameOver_still_sets_flash
    { hp := 1, gameOver := false, roundActive := true, roundEndsAt := 100, targetIndex := 0,
      hitRecorded := false, flashingTarget := none, flashEndsAt := 0, flashColor := none,
      lastActivatedIndex := none } 100 0 (by decide) (by decide) (by decide) (by decide)
  exact ⟨h.1, h.2.2.2.2.2.1⟩

/-- C4 amended: hitRecorded is computed only at round end, as the equality
lastActivatedIndex == targetIndex; consequently a round ends as a hit (lives
unchanged, Flash phase, success flash) exactly when the LAST activation
recorded before the deadline is the target region.  (The original claim,
requiring only that the target was activated at least once, is refuted by
C4_counterexample: a later activation of a different region overwrites the
pick.) -/
theorem C4_hit_is_last_activation :
    (∀ now s, (endRound now s).hitRecorded = (s.lastActivatedIndex == some s.targetIndex)) ∧
    (∀ s now target, phase s = Phase.RoundActive →
      s.lastActivatedIndex = some s.targetIndex → s.roundEndsAt ≤ now →
      (maybeAdvanceGameClock now target s).hitRecorded = true ∧
      (maybeAdvanceGameClock now target s).hp = s.hp ∧
      phase (maybeAdvanceGameClock now target s) = Phase.Flash ∧
      (maybeAdvanceGameClock now target s).flashColor = some FlashColor.success) := by
  constructor
  · intro now s
    exact endRound_hitRecorded now s
  · intro s now target hph hhit hd
    obtain ⟨hG, hR⟩ := (phase_roundActive_iff s).mp hph
    rw [maybeAdvance_end now target s hG hR hd, endRound_hit now s hhit]
    refine ⟨rfl, rfl, ?_, rfl⟩
    simp [phase, hG]

/-- C4 witness: a concrete active round whose last activation equals the
target ends as a hit with lives kept and a success flash. -/
theorem C4_hit_is_last_activation_witness :
    (endRound 300
      { hp := 3, gameOver := false, roundActive := true, roundEndsAt := 300, targetIndex := 2,
        hitRecorded := false, flashingTarget := none, flashEndsAt := 0, flashColor := none,
        lastActivatedIndex := some 2 }).hitRecorded = true ∧
    (maybeAdvanceGameClock 300 0
      { hp := 3, gameOver := false, roundActive := true, roundEndsAt := 300, targetIndex := 2,
        hitRecorded := false, flashingTarget := none, flashEndsAt := 0, flashColor := none,
        lastActivatedIndex := some 2 }).hp = 3 ∧
    phase (maybeAdvanceGameClock 300 0
      { hp := 3, gameOver := false, roundActive := true, roundEndsAt := 300, targetIndex := 2,
        hitRecorded := false, flashingTarget := none, flashEndsAt := 0, flashColor := none,
        lastActivatedIndex := some 2 }) = Phase.Flash := by
  have h1 := C4_hit_is_last_activation.1 300
    { hp := 3, gameOver := false, roundActive := true, roundEndsAt := 300, targetIndex := 2,
      hitRecorded := false, flashingTarget := none, flashEndsAt := 0, flashColor := none,
      lastActivatedIndex := some 2 }
  have h2 := C4_hit_is_last_activation.2
    { hp := 3, gameOver := false, roundActive := true, roundEndsAt := 300, targetIndex := 2,
      hitRecorded := false, flashingTarget := none, flashEndsAt := 0, flashColor := none,
      lastActivatedIndex := some 2 } 300 0 (by decide) (by decide) (by decide)
  exact ⟨h1.trans (by decide), h2.2.1, h2.2.2.1⟩

end MotionGame

namespace MotionGame

/-! ### Region-activation lemmas -/

lemma frameLastRun_of_none_active (mask : List Bool) (width : Nat) (ra : Bool) :
    ∀ (l : List Button) (idx : Nat) (acc : Option Nat),
      (∀ b ∈ l, buttonActive mask width ra b = false) →
      frameLastRun mask width ra l idx acc = acc := by
  intro l
  induction l with
  | nil => intro idx acc h; rfl
  | cons b rest ih =>
      intro idx acc h
      unfold frameLastRun
      rw [h b (by simp), if_neg (by simp)]
      exact ih (idx + 1) acc (fun c hc => h c (by simp [hc]))

lemma frameLastRun_of_last_active (mask : List Bool) (width : Nat) (ra : Bool) :
    ∀ (l : List Button) (j : Nat) (bj : Button) (idx : Nat) (acc : Option Nat),
      l.get? j = some bj →
      buttonActive mask width ra bj = true →
      (∀ k bk, j < k → l.get? k = some bk → buttonActive mask width ra bk = false) →
      frameLastRun mask width ra l idx acc = some (idx + j) := by
  intro l
  induction l with
  | nil => intro j bj idx acc hj; simp at hj
  | cons b rest ih =>
      intro j bj idx acc hj hact hafter
      cases j with
      | zero =>
          simp only [List.get?_cons_zero, Option.some_inj] at hj
          subst hj
          unfold frameLastRun
          rw [hact, if_pos rfl]
          rw [frameLastRun_of_none_active mask width ra rest (idx + 1) (some idx) ?_]
          · simp
          · intro c hc
            obtain ⟨k, hk⟩ := List.get?_of_mem hc
            exact hafter (k + 1) c (Nat.succ_pos k) (by simpa using hk)
      | succ j0 =>
          unfold frameLastRun
          have hstep := ih j0 bj (idx + 1) (if buttonActive mask width ra b then some idx else acc)
            (by simpa using hj) hact ?_
          · rw [hstep]
            congr 1
            omega
          · intro k bk hlt hget
            exact hafter (k + 1) bk (by omega) (by simpa using hget)

end MotionGame

namespace MotionGame

/-- C3: when several regions are over threshold in the same active-round
tick, checkVirtualButtons records the one evaluated last in declaration
order: if region j is active and no later-declared region is, the result is
some j, regardless of any earlier active region i < j; only one region can
be recorded per frame. -/
theorem C3_tie_break_last_declared (mask : List Bool) (width : Nat)
    (btns : List Button) (last : Option Nat) (i j : Nat) (bi bj : Button)
    (hij : i < j)
    (hi : btns.get? i = some bi) (hj : btns.get? j = some bj)
    (hai : buttonActive mask width true bi = true)
    (haj : buttonActive mask width true bj = true)
    (hafter : ∀ k bk, j < k → btns.get? k = some bk →
      buttonActive mask width true bk = false) :
    checkVirtualButtons mask width btns true last = some j ∧ j ≠ i := by
  unfold checkVirtualButtons
  rw [frameLastRun_of_last_active mask width true btns j bj 0 none hj haj hafter]
  exact ⟨by simp, by omega⟩

/-- C3 witness: two adjacent fully-covered 1x1 regions on an all-motion
2-pixel mask; the later-declared one (index 1) wins. -/
theorem C3_tie_break_last_declared_witness :
    checkVirtualButtons [true, true] 2 [⟨0, 0, 1, 1⟩, ⟨1, 0, 1, 1⟩] true none = some 1 := by
  have h := C3_tie_break_last_declared [true, true] 2 [⟨0, 0, 1, 1⟩, ⟨1, 0, 1, 1⟩] none
    0 1 ⟨0, 0, 1, 1⟩ ⟨1, 0, 1, 1⟩ (by omega) (by rfl) (by rfl)
    (by rw [buttonActive_eq_natTest]; decide)
    (by rw [buttonActive_eq_natTest]; decide)
    ?_
  · exact h.1
  · intro k bk hk hget
    have hnone : ([⟨0, 0, 1, 1⟩, ⟨1, 0, 1, 1⟩] : List Button).get? k = none := by
      rw [List.get?_eq_none]
      simpa using hk
    rw [hnone] at hget
    cases hget

/-- C10: on a tick in which no region is active (in particular whenever the
motion mask triggers no region, or the round is not active so every
per-region test is false), checkVirtualButtons leaves lastActivatedIndex at
its previous value instead of clearing it, so an activation recorded
earlier in the round persists; at the tick level, such a frame leaves the
lastActivatedIndex field of the state unchanged. -/
theorem C10_last_activation_persists :
    (∀ (mask : List Bool) (width : Nat) (btns : List Button) (ra : Bool)
        (last : Option Nat),
      (∀ b ∈ btns, buttonActive mask width ra b = false) →
      checkVirtualButtons mask width btns ra last = last) ∧
    (∀ (s : GameState) (pf : Frame) (t : Tick),
      s.gameOver = false →
      (∀ b ∈ mkButtons t.frame.width,
        buttonActive (detectMotion pf t.frame) t.frame.width s.roundActive b = false) →
      (tickDetect { prev := some pf, s := s } t).lastActivatedIndex = s.lastActivatedIndex) := by
  constructor
  · intro mask width btns ra last h
    unfold checkVirtualButtons
    rw [frameLastRun_of_none_active mask width ra btns 0 none h]
  · intro s pf t hG h
    unfold tickDetect
    simp only [hG, Bool.false_eq_true, if_false]
    have hc : checkVirtualButtons (detectMotion pf t.frame) t.frame.width
        (mkButtons t.frame.width) s.roundActive s.lastActivatedIndex = s.lastActivatedIndex := by
      unfold checkVirtualButtons
      rw [frameLastRun_of_none_active _ _ _ _ 0 none h]
    rw [hc]

end MotionGame

namespace MotionGame

lemma maskAt_nil (idx : Int) : maskAt [] idx = false := by
  unfold maskAt
  split <;> simp

lemma motionCount_nil (width : Nat) (b : Button) : motionCount [] width b = 0 := by
  unfold motionCount
  simp [maskAt_nil]

lemma buttonActive_nil (width : Nat) (ra : Bool) (b : Button) :
    buttonActive [] width ra b = false := by
  rw [buttonActive_eq_natTest, motionCount_nil]
  simp

/-- C10 witness: an all-quiet tick (empty frames, hence an empty mask and no
active region) leaves a previously recorded activation some 1 in place; the
pure checkVirtualButtons variant likewise returns the previous pick. -/
theorem C10_last_activation_persists_witness :
    checkVirtualButtons [] 2 [⟨0, 0, 1, 1⟩] true (some 0) = some 0 ∧
    (tickDetect
      { prev := some ⟨0, 0, []⟩,
        s := { hp := 3, gameOver := false, roundActive := true, roundEndsAt := 2000,
               targetIndex := 0, hitRecorded := false, flashingTarget := none,
               flashEndsAt := 0, flashColor := none, lastActivatedIndex := some 1 } }
      { now := 50, frame := ⟨0, 0, []⟩, target := 0 }).lastActivatedIndex = some 1 := by
  constructor
  · exact C10_last_activation_persists.1 [] 2 [⟨0, 0, 1, 1⟩] true (some 0)
      (by intro b hb; exact buttonActive_nil 2 true b)
  · exact C10_last_activation_persists.2 _ ⟨0, 0, []⟩ { now := 50, frame := ⟨0, 0, []⟩, target := 0 }
      rfl (by intro b hb; exact buttonActive_nil 0 _ b)

/-- C6: region activation is a strict inequality on the motion ratio
(motion pixels in the rectangle divided by w * h): a ratio exactly equal to
the 0.15 threshold does not activate the region, any strictly greater ratio
does. -/
theorem C6_strict_threshold (mask : List Bool) (width : Nat) (b : Button) :
    (ratioOf mask width b = THRESHOLD → buttonActive mask width true b = false) ∧
    (THRESHOLD < ratioOf mask width b → buttonActive mask width true b = true) := by
  constructor
  · intro h
    unfold buttonActive
    rw [h]
    simp
  · intro h
    unfold buttonActive
    simp [h]

/-- C6 witness: a 5x4 region (20 pixels) with exactly 3 motion pixels has
ratio exactly 0.15 and is not active; with 4 motion pixels (ratio 0.2) it
is active. -/
theorem C6_strict_threshold_witness :
    ratioOf ([true, true, true] ++ List.replicate 17 false) 5 ⟨0, 0, 5, 4⟩ = THRESHOLD ∧
    buttonActive ([true, true, true] ++ List.replicate 17 false) 5 true ⟨0, 0, 5, 4⟩ = false ∧
    THRESHOLD < ratioOf ([true, true, true, true] ++ List.replicate 16 false) 5 ⟨0, 0, 5, 4⟩ ∧
    buttonActive ([true, true, true, true] ++ List.replicate 16 false) 5 true ⟨0, 0, 5, 4⟩ = true := by
  have h1 : ratioOf ([true, true, true] ++ List.replicate 17 false) 5 ⟨0, 0, 5, 4⟩ = THRESHOLD :=
    (ratio_eq_threshold_iff _ _ _ (by decide)).mpr (by decide)
  have h2 : THRESHOLD < ratioOf ([true, true, true, true] ++ List.replicate 16 false) 5 ⟨0, 0, 5, 4⟩ :=
    (threshold_lt_ratio_iff _ _ _).mpr (by decide)
  exact ⟨h1, (C6_strict_threshold _ _ _).1 h1, h2, (C6_strict_threshold _ _ _).2 h2⟩

/-- C7: the frame differ marks a pixel as motion exactly when the sum of the
absolute per-channel RGB differences is strictly greater than 50. -/
theorem C7_motion_threshold (prev curr : Frame) (k : Nat) (p c : Pixel)
    (hprev : prev.data.get? k = some p) (hcurr : curr.data.get? k = some c) :
    (detectMotion prev curr).get? k =
      some (decide (50 < ((c.r : Int) - (p.r : Int)).natAbs +
        ((c.g : Int) - (p.g : Int)).natAbs + ((c.b : Int) - (p.b : Int)).natAbs)) := by
  have hk : k < curr.data.length := by
    by_contra hge
    rw [List.get?_eq_none.mpr (by omega)] at hcurr
    cases hcurr
  unfold detectMotion
  rw [List.get?_map, List.get?_range hk]
  have hprev2 : prev.data[k]? = some p := by rw [← List.get?_eq_getElem?]; exact hprev
  have hcurr2 : curr.data[k]? = some c := by rw [← List.get?_eq_getElem?]; exact hcurr
  simp [hprev2, hcurr2, pixelDelta]

/-- C7 witness: channel deltas summing to exactly 50 are not motion; summing
to 51 are. -/
theorem C7_motion_threshold_witness :
    (detectMotion ⟨1, 1, [⟨10, 10, 10, 0⟩]⟩ ⟨1, 1, [⟨35, 35, 10, 0⟩]⟩).get? 0 = some false ∧
    (detectMotion ⟨1, 1, [⟨10, 10, 10, 0⟩]⟩ ⟨1, 1, [⟨35, 35, 11, 0⟩]⟩).get? 0 = some true := by
  constructor
  · exact (C7_motion_threshold ⟨1, 1, [⟨10, 10, 10, 0⟩]⟩ ⟨1, 1, [⟨35, 35, 10, 0⟩]⟩ 0
      ⟨10, 10, 10, 0⟩ ⟨35, 35, 10, 0⟩ rfl rfl).trans (by decide)
  · exact (C7_motion_threshold ⟨1, 1, [⟨10, 10, 10, 0⟩]⟩ ⟨1, 1, [⟨35, 35, 11, 0⟩]⟩ 0
      ⟨10, 10, 10, 0⟩ ⟨35, 35, 11, 0⟩ rfl rfl).trans (by decide)

/-- C9 counterexample: frames of different dimensions (1x1 versus 2x1) do
not make the differ fail: detectMotion still returns a motion mask, sized
to the current frame, with the out-of-range pixel quietly marked no-motion
even though its channel deltas are huge; only the spec-modelled contract
specDiff yields DimensionMismatch. -/
theorem C9_counterexample :
    ¬ ((⟨1, 1, [⟨0, 0, 0, 255⟩]⟩ : Frame).width =
        (⟨2, 1, [⟨255, 255, 255, 255⟩, ⟨255, 255, 255, 255⟩]⟩ : Frame).width) ∧
    detectMotion ⟨1, 1, [⟨0, 0, 0, 255⟩]⟩
      ⟨2, 1, [⟨255, 255, 255, 255⟩, ⟨255, 255, 255, 255⟩]⟩ = [true, false] ∧
    specDiff ⟨1, 1, [⟨0, 0, 0, 255⟩]⟩
      ⟨2, 1, [⟨255, 255, 255, 255⟩, ⟨255, 255, 255, 255⟩]⟩ =
      Except.error DiffError.DimensionMismatch := by
  refine ⟨by decide, by decide, ?_⟩
  unfold specDiff
  rw [if_neg (by decide)]

/-- C9 amended: detectMotion performs no dimension check at all: for every
pair of frames, mismatched or not, it returns a mask of the current frame's
pixel count, and every pixel position past the end of the previous frame's
buffer is marked no-motion (the undefined reads make the JS delta NaN and
NaN > 50 is false). -/
theorem C9_no_dimension_check (prev curr : Frame) :
    (detectMotion prev curr).length = curr.data.length ∧
    (∀ k, k < curr.data.length → prev.data.length ≤ k →
      (detectMotion prev curr).get? k = some false) := by
  constructor
  · unfold detectMotion
    rw [List.length_map, List.length_range]
  · intro k hk hge
    unfold detectMotion
    rw [List.get?_map, List.get?_range hk]
    have hnone : prev.data[k]? = none := by
      rw [← List.get?_eq_getElem?]
      exact List.get?_eq_none.mpr hge
    simp [hnone]

/-- C9 witness: the mismatched 1x1 / 2x1 pair yields a 2-entry mask whose
out-of-range second pixel is no-motion. -/
theorem C9_no_dimension_check_witness :
    (detectMotion ⟨1, 1, [⟨0, 0, 0, 255⟩]⟩
      ⟨2, 1, [⟨255, 255, 255, 255⟩, ⟨255, 255, 255, 255⟩]⟩).length = 2 ∧
    (detectMotion ⟨1, 1, [⟨0, 0, 0, 255⟩]⟩
      ⟨2, 1, [⟨255, 255, 255, 255⟩, ⟨255, 255, 255, 255⟩]⟩).get? 1 = some false := by
  constructor
  · exact (C9_no_dimension_check ⟨1, 1, [⟨0, 0, 0, 255⟩]⟩
      ⟨2, 1, [⟨255, 255, 255, 255⟩, ⟨255, 255, 255, 255⟩]⟩).1
  · exact (C9_no_dimension_check ⟨1, 1, [⟨0, 0, 0, 255⟩]⟩
      ⟨2, 1, [⟨255, 255, 255, 255⟩, ⟨255, 255, 255, 255⟩]⟩).2 1 (by decide) (by decide)

end MotionGame

namespace MotionGame

/-! ### Helpers for evaluating the pipeline on the concrete frames -/

lemma getRep {α : Type _} (a : α) : ∀ (N k : Nat), k < N → (List.replicate N a).get? k = some a := by
  intro N
  induction N with
  | zero => intro k hk; omega
  | succ n ih =>
      intro k hk
      cases k with
      | zero => rfl
      | succ k0 =>
          rw [List.replicate_succ, List.get?_cons_succ]
          exact ih k0 (by omega)

lemma mapCongrOn {α β : Type _} (f g : α → β) :
    ∀ (l : List α), (∀ a ∈ l, f a = g a) → l.map f = l.map g
  | [], _ => rfl
  | a :: t, h => by
      simp only [List.map_cons]
      rw [h a (List.mem_cons_self a t),
        mapCongrOn f g t (fun x hx => h x (List.mem_cons_of_mem a hx))]

lemma mapConstRep {α β : Type _} (c : β) :
    ∀ (l : List α), l.map (fun _ => c) = List.replicate l.length c
  | [] => rfl
  | a :: t => by
      simp only [List.map_cons, List.length_cons, List.replicate_succ]
      rw [mapConstRep c t]

lemma sumRep (c : Nat) : ∀ n, (List.replicate n c).sum = n * c
  | 0 => by simp
  | n + 1 => by
      rw [List.replicate_succ, List.sum_cons, sumRep c n]
      ring

lemma filterAll {p : Nat → Bool} :
    ∀ (l : List Nat), (∀ a ∈ l, p a = true) → l.filter p = l
  | [], _ => rfl
  | a :: t, h => by
      rw [List.filter_cons_of_pos (h a (List.mem_cons_self a t)),
        filterAll t (fun x hx => h x (List.mem_cons_of_mem a hx))]

lemma filterNone {p : Nat → Bool} :
    ∀ (l : List Nat), (∀ a ∈ l, p a = false) → l.filter p = []
  | [], _ => rfl
  | a :: t, h => by
      rw [List.filter_cons_of_neg (by simp [h a (List.mem_cons_self a t)]),
        filterNone t (fun x hx => h x (List.mem_cons_of_mem a hx))]

lemma maskAt_rep_false (N : Nat) (idx : Int) : maskAt (List.replicate N false) idx = false := by
  unfold maskAt
  split
  · cases h : (List.replicate N false).get? idx.toNat with
    | none => rfl
    | some v =>
        have hv : v = false := List.eq_of_mem_replicate (List.get?_mem h)
        simp [hv]
  · rfl

lemma motionCount_rep_true (N width : Nat) (b : Button)
    (hin : ∀ dj di, dj < b.h → di < b.w →
      0 ≤ (b.y + (dj : Int)) * (width : Int) + (b.x + (di : Int)) ∧
      ((b.y + (dj : Int)) * (width : Int) + (b.x + (di : Int))).toNat < N) :
    motionCount (List.replicate N true) width b = b.w * b.h := by
  unfold motionCount
  rw [mapCongrOn _ (fun _ => b.w) _ ?_, mapConstRep, List.length_range, sumRep]
  · ring
  · intro dj hdj
    have hdj2 : dj < b.h := List.mem_range.mp hdj
    simp only
    rw [filterAll _ ?_, List.length_range]
    intro di hdi
    have hdi2 : di < b.w := List.mem_range.mp hdi
    obtain ⟨h0, h1⟩ := hin dj di hdj2 hdi2
    unfold maskAt
    rw [if_pos h0, getRep true N _ h1]
    rfl

lemma motionCount_rep_false (N width : Nat) (b : Button) :
    motionCount (List.replicate N false) width b = 0 := by
  unfold motionCount
  rw [mapCongrOn _ (fun _ => 0) _ ?_, mapConstRep, sumRep]
  · ring
  · intro dj hdj
    simp only
    rw [filterNone _ (fun di hdi => maskAt_rep_false N _)]
    rfl

lemma buttonActive_rep_false (N width : Nat) (ra : Bool) (b : Button) :
    buttonActive (List.replicate N false) width ra b = false := by
  rw [buttonActive_eq_natTest, motionCount_rep_false]
  simp

lemma detect_black_white : detectMotion blackF whiteF = List.replicate 16800 true := by
  unfold detectMotion
  have hlen : whiteF.data.length = 16800 := by
    rw [show whiteF.data = List.replicate 16800 (⟨255, 255, 255, 255⟩ : Pixel) from rfl,
      List.length_replicate]
  rw [hlen, mapCongrOn _ (fun _ => true) _ ?_, mapConstRep, List.length_range]
  intro k hk
  have hk2 : k < 16800 := List.mem_range.mp hk
  have hb : blackF.data.get? k = some ⟨0, 0, 0, 255⟩ := getRep _ 16800 k hk2
  have hw : whiteF.data.get? k = some ⟨255, 255, 255, 255⟩ := getRep _ 16800 k hk2
  simp only [hb, hw]
  decide

lemma detect_white_white : detectMotion whiteF whiteF = List.replicate 16800 false := by
  unfold detectMotion
  have hlen : whiteF.data.length = 16800 := by
    rw [show whiteF.data = List.replicate 16800 (⟨255, 255, 255, 255⟩ : Pixel) from rfl,
      List.length_replicate]
  rw [hlen, mapCongrOn _ (fun _ => false) _ ?_, mapConstRep, List.length_range]
  intro k hk
  have hk2 : k < 16800 := List.mem_range.mp hk
  have hw : whiteF.data.get? k = some ⟨255, 255, 255, 255⟩ := getRep _ 16800 k hk2
  simp only [hw]
  decide

end MotionGame

namespace MotionGame

lemma act_top : buttonActive (List.replicate 16800 true) 84 true ⟨0, 16, 84, 84⟩ = true := by
  rw [buttonActive_eq_natTest, motionCount_rep_true 16800 84 _ ?_]
  · decide
  · intro dj di hdj hdi
    have hdj2 : dj < 84 := hdj
    have hdi2 : di < 84 := hdi
    refine ⟨?_, ?_⟩
    · show (0:Int) ≤ ((16:Int) + (dj : Int)) * (84 : Int) + ((0:Int) + (di : Int))
      omega
    · rw [Int.toNat_lt' (by norm_num)]
      show ((16:Int) + (dj : Int)) * (84 : Int) + ((0:Int) + (di : Int)) < (16800 : Nat)
      push_cast
      omega

lemma act_left : buttonActive (List.replicate 16800 true) 84 true ⟨16, 112, 84, 84⟩ = true := by
  rw [buttonActive_eq_natTest, motionCount_rep_true 16800 84 _ ?_]
  · decide
  · intro dj di hdj hdi
    have hdj2 : dj < 84 := hdj
    have hdi2 : di < 84 := hdi
    refine ⟨?_, ?_⟩
    · show (0:Int) ≤ ((112:Int) + (dj : Int)) * (84 : Int) + ((16:Int) + (di : Int))
      omega
    · rw [Int.toNat_lt' (by norm_num)]
      show ((112:Int) + (dj : Int)) * (84 : Int) + ((16:Int) + (di : Int)) < (16800 : Nat)
      push_cast
      omega

lemma act_right : buttonActive (List.replicate 16800 true) 84 true ⟨-16, 112, 84, 84⟩ = true := by
  rw [buttonActive_eq_natTest, motionCount_rep_true 16800 84 _ ?_]
  · decide
  · intro dj di hdj hdi
    have hdj2 : dj < 84 := hdj
    have hdi2 : di < 84 := hdi
    refine ⟨?_, ?_⟩
    · show (0:Int) ≤ ((112:Int) + (dj : Int)) * (84 : Int) + ((-16:Int) + (di : Int))
      omega
    · rw [Int.toNat_lt' (by norm_num)]
      show ((112:Int) + (dj : Int)) * (84 : Int) + ((-16:Int) + (di : Int)) < (16800 : Nat)
      push_cast
      omega

end MotionGame

namespace MotionGame

lemma mkButtons84 : mkButtons 84 = [⟨0, 16, 84, 84⟩, ⟨16, 112, 84, 84⟩, ⟨-16, 112, 84, 84⟩] := by
  decide

lemma checkVirtualButtons_of_some (mask : List Bool) (width : Nat) (btns : List Button)
    (ra : Bool) (last : Option Nat) (i : Nat)
    (h : frameLastRun mask width ra btns 0 none = some i) :
    checkVirtualButtons mask width btns ra last = some i := by
  unfold checkVirtualButtons
  rw [h]

lemma checkVirtualButtons_of_none (mask : List Bool) (width : Nat) (btns : List Button)
    (ra : Bool) (last : Option Nat)
    (h : frameLastRun mask width ra btns 0 none = none) :
    checkVirtualButtons mask width btns ra last = last := by
  unfold checkVirtualButtons
  rw [h]


lemma cvb_all_motion2 (last : Option Nat) :
    checkVirtualButtons (detectMotion blackF whiteF) whiteF.width (mkButtons whiteF.width)
      true last = some 2 := by
  apply checkVirtualButtons_of_some
  rw [show whiteF.width = 84 from rfl, detect_black_white, mkButtons84]
  have h := frameLastRun_of_last_active (List.replicate 16800 true) 84 true
    [⟨0, 16, 84, 84⟩, ⟨16, 112, 84, 84⟩, ⟨-16, 112, 84, 84⟩] 2 ⟨-16, 112, 84, 84⟩ 0 none
    rfl act_right ?_
  · exact h
  · intro k bk hk hget
    have hnone : ([⟨0, 16, 84, 84⟩, ⟨16, 112, 84, 84⟩, ⟨-16, 112, 84, 84⟩] :
        List Button).get? k = none := by
      rw [List.get?_eq_none]
      simpa using hk
    rw [hnone] at hget
    cases hget

lemma cvb_no_motion2 (ra : Bool) (last : Option Nat) :
    checkVirtualButtons (detectMotion whiteF whiteF) whiteF.width (mkButtons whiteF.width)
      ra last = last := by
  apply checkVirtualButtons_of_none
  rw [show whiteF.width = 84 from rfl, detect_white_white]
  exact frameLastRun_of_none_active _ _ _ _ 0 none
    (fun b hb => buttonActive_rep_false 16800 84 ra b)

lemma step1 :
    processFrame (initWorld 0 1) { now := 10, frame := blackF, target := 0 } =
      { prev := some blackF,
        s := { hp := 3, gameOver := false, roundActive := true, roundEndsAt := 2000,
               targetIndex := 1, hitRecorded := false, flashingTarget := none,
               flashEndsAt := 0, flashColor := none, lastActivatedIndex := none } } := by
  simp only [processFrame, tickDetect, initWorld, World.mk.injEq]
  refine ⟨trivial, ?_⟩
  decide

lemma step2 :
    processFrame
      { prev := some blackF,
        s := { hp := 3, gameOver := false, roundActive := true, roundEndsAt := 2000,
               targetIndex := 1, hitRecorded := false, flashingTarget := none,
               flashEndsAt := 0, flashColor := none, lastActivatedIndex := none } }
      { now := 20, frame := whiteF, target := 0 } =
      { prev := some whiteF,
        s := { hp := 3, gameOver := false, roundActive := true, roundEndsAt := 2000,
               targetIndex := 1, hitRecorded := false, flashingTarget := none,
               flashEndsAt := 0, flashColor := none, lastActivatedIndex := some 2 } } := by
  simp only [processFrame, tickDetect, World.mk.injEq]
  rw [cvb_all_motion2]
  refine ⟨trivial, ?_⟩
  decide

lemma step3 :
    processFrame
      { prev := some whiteF,
        s := { hp := 3, gameOver := false, roundActive := true, roundEndsAt := 2000,
               targetIndex := 1, hitRecorded := false, flashingTarget := none,
               flashEndsAt := 0, flashColor := none, lastActivatedIndex := some 2 } }
      { now := 2000, frame := whiteF, target := 0 } =
      { prev := some whiteF,
        s := { hp := 2, gameOver := false, roundActive := false, roundEndsAt := 2000,
               targetIndex := 1, hitRecorded := false, flashingTarget := some 1,
               flashEndsAt := 2500, flashColor := some FlashColor.fail,
               lastActivatedIndex := some 2 } } := by
  simp only [processFrame, tickDetect, World.mk.injEq]
  rw [cvb_no_motion2]
  refine ⟨trivial, ?_⟩
  decide

/-- C4 counterexample: a run refuting the claim that activating the target
at least once before the deadline suffices for a hit.  The round starts at
t=0 with target index 1 (the grayscale button).  On the tick at t=20 every
region is over threshold - in particular the target region IS activated -
but the later-declared region 2 wins the tie-break and overwrites the pick.
Nothing moves afterwards, so at the t=2000 deadline lastActivatedIndex is
some 2, not some 1: the round ends with hitRecorded = false, a life is lost
(hp 3 to 2) and the flash is fail, not success. -/
theorem C4_counterexample :
    (mkButtons whiteF.width).get? 1 = some ⟨16, 112, 84, 84⟩ ∧
    buttonActive (detectMotion blackF whiteF) whiteF.width true ⟨16, 112, 84, 84⟩ = true ∧
    (let w3 := processFrame (processFrame (processFrame (initWorld 0 1)
        { now := 10, frame := blackF, target := 0 })
        { now := 20, frame := whiteF, target := 0 })
        { now := 2000, frame := whiteF, target := 0 };
      w3.s.targetIndex = 1 ∧ w3.s.lastActivatedIndex = some 2 ∧
      w3.s.hitRecorded = false ∧ w3.s.hp = 2 ∧
      w3.s.flashColor = some FlashColor.fail ∧ phase w3.s = Phase.Flash) := by
  refine ⟨by decide, ?_, ?_⟩
  · rw [detect_black_white]
    exact act_left
  · simp only [step1, step2, step3]
    decide

end MotionGame

namespace MotionGame

/-! ### The lives invariant -/

lemma startRound_hp (now target : Nat) (s : GameState) :
    (startRound now target s).hp = s.hp := by
  unfold startRound
  split <;> rfl

lemma startRound_gameOver (now target : Nat) (s : GameState) :
    (startRound now target s).gameOver = s.gameOver := by
  unfold startRound
  split <;> rfl

lemma endRound_hp_le (now : Nat) (s : GameState) : (endRound now s).hp ≤ s.hp := by
  by_cases h : s.lastActivatedIndex = some s.targetIndex
  · rw [endRound_hit now s h]
  · rw [endRound_miss now s h]
    show s.hp - 1 ≤ s.hp
    omega

lemma endRound_inv (now : Nat) (s : GameState) (hG : s.gameOver = false)
    (hI : LivesInv s) : LivesInv (endRound now s) := by
  obtain ⟨h0, h1, h2⟩ := hI
  by_cases h : s.lastActivatedIndex = some s.targetIndex
  · rw [endRound_hit now s h]
    exact ⟨h0, h1, h2⟩
  · rw [endRound_miss now s h]
    have hpos : ¬ s.hp = 0 := fun hz => by
      rw [hG] at h2
      exact absurd (h2.mpr hz) (by simp)
    refine ⟨?_, ?_, ?_⟩
    · show 0 ≤ s.hp - 1
      omega
    · show s.hp - 1 ≤ MAX_HP
      unfold MAX_HP at *
      omega
    · show (if s.hp - 1 == 0 then true else s.gameOver) = true ↔ s.hp - 1 = 0
      by_cases hz : s.hp - 1 = 0
      · have hb : (s.hp - 1 == 0) = true := by simpa using hz
        rw [hb]
        simp [hz]
      · have hb : (s.hp - 1 == 0) = false := by simpa using hz
        rw [hb]
        simp [hG, hz]

lemma maybeAdvance_cases (now target : Nat) (s : GameState) :
    maybeAdvanceGameClock now target s = s ∨
    maybeAdvanceGameClock now target s = endRound now s ∨
    maybeAdvanceGameClock now target s = startRound now target s ∨
    maybeAdvanceGameClock now target s = startRound now target (endRound now s) := by
  unfold maybeAdvanceGameClock
  dsimp only
  split
  · split
    · right; right; right; rfl
    · right; left; rfl
  · split
    · right; right; left; rfl
    · left; rfl

lemma maybeAdvance_hp_le (now target : Nat) (s : GameState) :
    (maybeAdvanceGameClock now target s).hp ≤ s.hp := by
  rcases maybeAdvance_cases now target s with h | h | h | h <;> rw [h]
  · exact endRound_hp_le now s
  · rw [startRound_hp]
  · rw [startRound_hp]
    exact endRound_hp_le now s

lemma maybeAdvance_gameOver_of (now target : Nat) (s : GameState) (hG : s.gameOver = true) :
    maybeAdvanceGameClock now target s = s := by
  unfold maybeAdvanceGameClock
  simp [hG]

lemma startRound_inv (now target : Nat) (s : GameState) (hI : LivesInv s) :
    LivesInv (startRound now target s) := by
  unfold LivesInv at *
  rw [startRound_hp, startRound_gameOver]
  exact hI

lemma maybeAdvance_inv (now target : Nat) (s : GameState) (hI : LivesInv s) :
    LivesInv (maybeAdvanceGameClock now target s) := by
  rcases maybeAdvance_cases now target s with h | h | h | h <;> rw [h]
  · exact hI
  · by_cases hG : s.gameOver = true
    · rw [show maybeAdvanceGameClock now target s = s from
        maybeAdvance_gameOver_of now target s hG] at h
      rw [← h]
      exact hI
    · exact endRound_inv now s (by simpa using hG) hI
  · exact startRound_inv now target s hI
  · by_cases hG : s.gameOver = true
    · rw [show maybeAdvanceGameClock now target s = s from
        maybeAdvance_gameOver_of now target s hG] at h
      rw [← h]
      exact hI
    · exact startRound_inv now target _ (endRound_inv now s (by simpa using hG) hI)

lemma tickDetect_hp (w : World) (t : Tick) : (tickDetect w t).hp = w.s.hp := by
  obtain ⟨prev, s⟩ := w
  cases prev with
  | none => rfl
  | some pf =>
      unfold tickDetect
      dsimp only
      split <;> rfl

lemma tickDetect_gameOver (w : World) (t : Tick) : (tickDetect w t).gameOver = w.s.gameOver := by
  obtain ⟨prev, s⟩ := w
  cases prev with
  | none => rfl
  | some pf =>
      unfold tickDetect
      dsimp only
      split <;> rfl

lemma processFrame_hp_le (w : World) (t : Tick) : (processFrame w t).s.hp ≤ w.s.hp := by
  show (if (tickDetect w t).gameOver then tickDetect w t
    else maybeAdvanceGameClock t.now t.target (tickDetect w t)).hp ≤ w.s.hp
  split
  · rw [tickDetect_hp]
  · calc (maybeAdvanceGameClock t.now t.target (tickDetect w t)).hp
        ≤ (tickDetect w t).hp := maybeAdvance_hp_le t.now t.target (tickDetect w t)
      _ = w.s.hp := tickDetect_hp w t

lemma processFrame_inv (w : World) (t : Tick) (hI : LivesInv w.s) :
    LivesInv (processFrame w t).s := by
  have hIt : LivesInv (tickDetect w t) := by
    unfold LivesInv at *
    rw [tickDetect_hp, tickDetect_gameOver]
    exact hI
  show LivesInv (if (tickDetect w t).gameOver then tickDetect w t
    else maybeAdvanceGameClock t.now t.target (tickDetect w t))
  split
  · exact hIt
  · exact maybeAdvance_inv t.now t.target (tickDetect w t) hIt

lemma processFrame_frozen (w : World) (t : Tick) (hG : w.s.gameOver = true) :
    (processFrame w t).s = w.s := by
  have ht : tickDetect w t = w.s := by
    obtain ⟨prev, s⟩ := w
    cases prev with
    | none => rfl
    | some pf =>
        unfold tickDetect
        dsimp only
        rw [if_pos hG]
  show (if (tickDetect w t).gameOver then tickDetect w t
    else maybeAdvanceGameClock t.now t.target (tickDetect w t)) = w.s
  rw [ht, if_pos hG]

lemma foldl_hp_le (ts : List Tick) : ∀ (w : World),
    (ts.foldl processFrame w).s.hp ≤ w.s.hp := by
  induction ts with
  | nil => intro w; exact le_refl _
  | cons t rest ih =>
      intro w
      calc (rest.foldl processFrame (processFrame w t)).s.hp
          ≤ (processFrame w t).s.hp := ih (processFrame w t)
        _ ≤ w.s.hp := processFrame_hp_le w t

lemma foldl_inv (ts : List Tick) : ∀ (w : World),
    LivesInv w.s → LivesInv (ts.foldl processFrame w).s := by
  induction ts with
  | nil => intro w h; exact h
  | cons t rest ih =>
      intro w h
      exact ih (processFrame w t) (processFrame_inv w t h)

lemma foldl_frozen (ts : List Tick) : ∀ (w : World),
    w.s.gameOver = true → (ts.foldl processFrame w).s = w.s := by
  induction ts with
  | nil => intro w h; rfl
  | cons t rest ih =>
      intro w h
      rw [List.foldl_cons]
      rw [ih (processFrame w t) (by rw [processFrame_frozen w t h]; exact h)]
      exact processFrame_frozen w t h

lemma initWorld_inv (now0 target0 : Nat) : LivesInv (initWorld now0 target0).s := by
  refine ⟨?_, ?_, ?_⟩ <;>
    rw [show (initWorld now0 target0).s = startRound now0 target0 initState from rfl]
  · rw [startRound_hp]
    decide
  · rw [startRound_hp]
    decide
  · rw [startRound_gameOver, startRound_hp]
    decide

end MotionGame

namespace MotionGame

/-- A tick that carries the all-white frame while the previous frame is
also all-white: no motion, so only the clock can act. -/
lemma quiet_tick (s : GameState) (now target : Nat) :
    processFrame { prev := some whiteF, s := s } { now := now, frame := whiteF, target := target } =
      { prev := some whiteF, s := if s.gameOver then s else maybeAdvanceGameClock now target s } := by
  have ht : tickDetect { prev := some whiteF, s := s }
      { now := now, frame := whiteF, target := target } = s := by
    unfold tickDetect
    simp only
    split
    · rfl
    · rw [cvb_no_motion2]
  unfold processFrame
  rw [ht]

/-- C1: along every run of per-frame ticks from the initial state, hp never
increases and stays within [0, MAX_HP]; and as soon as hp reaches 0 the
state is frozen: every subsequent tick leaves the whole game state
unchanged (region activation and clock advancement are skipped) and the
phase reads GameOver permanently. -/
theorem C1_lives_monotone_terminal (now0 target0 : Nat) (ts more : List Tick) :
    (more.foldl processFrame (ts.foldl processFrame (initWorld now0 target0))).s.hp ≤
      (ts.foldl processFrame (initWorld now0 target0)).s.hp ∧
    (0 ≤ (more.foldl processFrame (ts.foldl processFrame (initWorld now0 target0))).s.hp ∧
      (more.foldl processFrame (ts.foldl processFrame (initWorld now0 target0))).s.hp ≤ MAX_HP) ∧
    ((ts.foldl processFrame (initWorld now0 target0)).s.hp = 0 →
      (more.foldl processFrame (ts.foldl processFrame (initWorld now0 target0))).s =
        (ts.foldl processFrame (initWorld now0 target0)).s ∧
      phase (more.foldl processFrame (ts.foldl processFrame (initWorld now0 target0))).s =
        Phase.GameOver) := by
  have hIw : LivesInv (ts.foldl processFrame (initWorld now0 target0)).s :=
    foldl_inv ts _ (initWorld_inv now0 target0)
  have hIw2 : LivesInv
      (more.foldl processFrame (ts.foldl processFrame (initWorld now0 target0))).s :=
    foldl_inv more _ hIw
  refine ⟨foldl_hp_le more _, ⟨hIw2.1, hIw2.2.1⟩, ?_⟩
  intro h0
  have hG : (ts.foldl processFrame (initWorld now0 target0)).s.gameOver = true :=
    hIw.2.2.mpr h0
  have hfz := foldl_frozen more _ hG
  refine ⟨hfz, ?_⟩
  rw [hfz]
  unfold phase
  rw [hG]
  simp

end MotionGame

namespace MotionGame

/-- C1 witness: a concrete run that never moves (all-white frames) misses
three consecutive rounds (deadlines 2000, 4500, 7000), reaching hp = 0;
the subsequent tick at 9000 leaves the state unchanged with phase
GameOver. -/
theorem C1_lives_monotone_terminal_witness :
    (([{ now := 10, frame := whiteF, target := 0 }, { now := 2000, frame := whiteF, target := 0 },
       { now := 2500, frame := whiteF, target := 2 }, { now := 4500, frame := whiteF, target := 0 },
       { now := 5000, frame := whiteF, target := 1 }, { now := 7000, frame := whiteF, target := 0 }] :
        List Tick).foldl processFrame (initWorld 0 1)).s.hp = 0 ∧
    (([{ now := 9000, frame := whiteF, target := 0 }] : List Tick).foldl processFrame
      (([{ now := 10, frame := whiteF, target := 0 }, { now := 2000, frame := whiteF, target := 0 },
         { now := 2500, frame := whiteF, target := 2 }, { now := 4500, frame := whiteF, target := 0 },
         { now := 5000, frame := whiteF, target := 1 }, { now := 7000, frame := whiteF, target := 0 }] :
          List Tick).foldl processFrame (initWorld 0 1))).s =
      (([{ now := 10, frame := whiteF, target := 0 }, { now := 2000, frame := whiteF, target := 0 },
         { now := 2500, frame := whiteF, target := 2 }, { now := 4500, frame := whiteF, target := 0 },
         { now := 5000, frame := whiteF, target := 1 }, { now := 7000, frame := whiteF, target := 0 }] :
          List Tick).foldl processFrame (initWorld 0 1)).s ∧
    phase (([{ now := 9000, frame := whiteF, target := 0 }] : List Tick).foldl processFrame
      (([{ now := 10, frame := whiteF, target := 0 }, { now := 2000, frame := whiteF, target := 0 },
         { now := 2500, frame := whiteF, target := 2 }, { now := 4500, frame := whiteF, target := 0 },
         { now := 5000, frame := whiteF, target := 1 }, { now := 7000, frame := whiteF, target := 0 }] :
          List Tick).foldl processFrame (initWorld 0 1))).s = Phase.GameOver := by
  have e1 : processFrame (initWorld 0 1) { now := 10, frame := whiteF, target := 0 } =
      { prev := some whiteF,
        s := { hp := 3, gameOver := false, roundActive := true, roundEndsAt := 2000,
               targetIndex := 1, hitRecorded := false, flashingTarget := none,
               flashEndsAt := 0, flashColor := none, lastActivatedIndex := none } } := by
    simp only [processFrame, tickDetect, initWorld, World.mk.injEq]
    exact ⟨trivial, by decide⟩
  have e2 : processFrame
      { prev := some whiteF,
        s := { hp := 3, gameOver := false, roundActive := true, roundEndsAt := 2000,
               targetIndex := 1, hitRecorded := false, flashingTarget := none,
               flashEndsAt := 0, flashColor := none, lastActivatedIndex := none } }
      { now := 2000, frame := whiteF, target := 0 } =
      { prev := some whiteF,
        s := { hp := 2, gameOver := false, roundActive := false, roundEndsAt := 2000,
               targetIndex := 1, hitRecorded := false, flashingTarget := some 1,
               flashEndsAt := 2500, flashColor := some FlashColor.fail,
               lastActivatedIndex := none } } := by
    rw [quiet_tick]
    simp only [World.mk.injEq]
    exact ⟨trivial, by decide⟩
  have e3 : processFrame
      { prev := some whiteF,
        s := { hp := 2, gameOver := false, roundActive := false, roundEndsAt := 2000,
               targetIndex := 1, hitRecorded := false, flashingTarget := some 1,
               flashEndsAt := 2500, flashColor := some FlashColor.fail,
               lastActivatedIndex := none } }
      { now := 2500, frame := whiteF, target := 2 } =
      { prev := some whiteF,
        s := { hp := 2, gameOver := false, roundActive := true, roundEndsAt := 4500,
               targetIndex := 2, hitRecorded := false, flashingTarget := none,
               flashEndsAt := 2500, flashColor := none, lastActivatedIndex := none } } := by
    rw [quiet_tick]
    simp only [World.mk.injEq]
    exact ⟨trivial, by decide⟩
  have e4 : processFrame
      { prev := some whiteF,
        s := { hp := 2, gameOver := false, roundActive := true, roundEndsAt := 4500,
               targetIndex := 2, hitRecorded := false, flashingTarget := none,
               flashEndsAt := 2500, flashColor := none, lastActivatedIndex := none } }
      { now := 4500, frame := whiteF, target := 0 } =
      { prev := some whiteF,
        s := { hp := 1, gameOver := false, roundActive := false, roundEndsAt := 4500,
               targetIndex := 2, hitRecorded := false, flashingTarget := some 2,
               flashEndsAt := 5000, flashColor := some FlashColor.fail,
               lastActivatedIndex := none } } := by
    rw [quiet_tick]
    simp only [World.mk.injEq]
    exact ⟨trivial, by decide⟩
  have e5 : processFrame
      { prev := some whiteF,
        s := { hp := 1, gameOver := false, roundActive := false, roundEndsAt := 4500,
               targetIndex := 2, hitRecorded := false, flashingTarget := some 2,
               flashEndsAt := 5000, flashColor := some FlashColor.fail,
               lastActivatedIndex := none } }
      { now := 5000, frame := whiteF, target := 1 } =
      { prev := some whiteF,
        s := { hp := 1, gameOver := false, roundActive := true, roundEndsAt := 7000,
               targetIndex := 1, hitRecorded := false, flashingTarget := none,
               flashEndsAt := 5000, flashColor := none, lastActivatedIndex := none } } := by
    rw [quiet_tick]
    simp only [World.mk.injEq]
    exact ⟨trivial, by decide⟩
  have e6 : processFrame
      { prev := some whiteF,
        s := { hp := 1, gameOver := false, roundActive := true, roundEndsAt := 7000,
               targetIndex := 1, hitRecorded := false, flashingTarget := none,
               flashEndsAt := 5000, flashColor := none, lastActivatedIndex := none } }
      { now := 7000, frame := whiteF, target := 0 } =
      { prev := some whiteF,
        s := { hp := 0, gameOver := true, roundActive := false, roundEndsAt := 7000,
               targetIndex := 1, hitRecorded := false, flashingTarget := some 1,
               flashEndsAt := 7500, flashColor := some FlashColor.fail,
               lastActivatedIndex := none } } := by
    rw [quiet_tick]
    simp only [World.mk.injEq]
    exact ⟨trivial, by decide⟩
  have hfold :
      (([{ now := 10, frame := whiteF, target := 0 }, { now := 2000, frame := whiteF, target := 0 },
         { now := 2500, frame := whiteF, target := 2 }, { now := 4500, frame := whiteF, target := 0 },
         { now := 5000, frame := whiteF, target := 1 }, { now := 7000, frame := whiteF, target := 0 }] :
          List Tick).foldl processFrame (initWorld 0 1)) =
      { prev := some whiteF,
        s := { hp := 0, gameOver := true, roundActive := false, roundEndsAt := 7000,
               targetIndex := 1, hitRecorded := false, flashingTarget := some 1,
               flashEndsAt := 7500, flashColor := some FlashColor.fail,
               lastActivatedIndex := none } } := by
    simp only [List.foldl_cons, List.foldl_nil]
    rw [e1, e2, e3, e4, e5, e6]
  have h := C1_lives_monotone_terminal 0 1
    [{ now := 10, frame := whiteF, target := 0 }, { now := 2000, frame := whiteF, target := 0 },
     { now := 2500, frame := whiteF, target := 2 }, { now := 4500, frame := whiteF, target := 0 },
     { now := 5000, frame := whiteF, target := 1 }, { now := 7000, frame := whiteF, target := 0 }]
    [{ now := 9000, frame := whiteF, target := 0 }]
  have hp0 :
      (([{ now := 10, frame := whiteF, target := 0 }, { now := 2000, frame := whiteF, target := 0 },
         { now := 2500, frame := whiteF, target := 2 }, { now := 4500, frame := whiteF, target := 0 },
         { now := 5000, frame := whiteF, target := 1 }, { now := 7000, frame := whiteF, target := 0 }] :
          List Tick).foldl processFrame (initWorld 0 1)).s.hp = 0 := by
    rw [hfold]
  exact ⟨hp0, (h.2.2 hp0).1, (h.2.2 hp0).2⟩

end MotionGame
